import Mathlib

/-!
Verification of the Plan-Execute-Validate control loop of the
Agentic-Web-Scraper repository.  The definitions below are a shallow
embedding of the Python sources:

  * src/agent/graph.py        (`_should_continue`, the Router, and the
                               orchestrator recursion limit)
  * src/agent/nodes/validator.py (`validate_step`, `validate_heuristic`)
  * src/agent/nodes/planner.py   (`plan_workflow`, `generate_heuristic_plan`,
                               `extract_value`)
  * src/agent/nodes/executor.py  (`execute_action`)

External collaborators (the language model and the browser tools) are
modelled as oracle parameters; Python dictionaries carrying JSON data are
modelled by the `JValue` type; Python exceptions are modelled with
`Except`/`Option` results.
-/

set_option maxRecDepth 4000

/-! ### Python string primitives -/

/-- Python `str.lower()` restricted to ASCII, which is all the sources use. -/
def lowerStr (s : String) : String := String.mk (s.data.map Char.toLower)

/-- Helper for Python's substring test: does `n` occur inside `h`? -/
def isSubChars (n : List Char) : List Char → Bool
  | [] => n.isEmpty
  | c :: t => n.isPrefixOf (c :: t) || isSubChars n t

/-- Python `needle in hay` on strings (substring containment). -/
def strIn (needle hay : String) : Bool := isSubChars needle.data hay.data

/-- Python `str.strip(c)` for a one-character strip set `c`. -/
def pyStripChar (s : List Char) (c : Char) : List Char :=
  ((s.dropWhile (fun x => x = c)).reverse.dropWhile (fun x => x = c)).reverse

/-- Python `str.strip(c)` on `String`. -/
def pyStrip (s : String) (c : Char) : String := String.mk (pyStripChar s.data c)

/-- The apostrophe character, `chr(39)`. -/
def squote : Char := Char.ofNat 39

/-- The double-quote character, `chr(34)`. -/
def dquote : Char := Char.ofNat 34

/-- Helper for Python `str.split()`: split on whitespace runs, dropping
empty pieces; `acc` is the current word, reversed. -/
def splitWsAux : List Char → List Char → List (List Char)
  | [], acc => if acc.isEmpty then [] else [acc.reverse]
  | c :: rest, acc =>
    if c.isWhitespace then
      if acc.isEmpty then splitWsAux rest [] else acc.reverse :: splitWsAux rest []
    else
      splitWsAux rest (c :: acc)

/-- Python `str.split()` with no arguments. -/
def pySplit (s : String) : List String := (splitWsAux s.data []).map String.mk

/-! ### Data model (src/agent/state.py and the plan step dictionaries) -/

/-- One plan step, as produced by the planner: the dictionary
`\x7b"step": n, "action": a, "target": t, "data": \x7b"value": v\x7d,
"expected_outcome": e\x7d`.  `data` holds the optional `"value"` entry and
`expected_outcome` is optional, matching the dictionaries the code builds. -/
structure Step where
  stepNo : Nat
  action : String
  target : String
  data : Option String
  expected_outcome : Option String
deriving DecidableEq, Inhabited

/-- The last observed page snapshot (`browser_state`).  `url` is the value
of `page_state.get("url", ...)` when the key is present, and `rendered` is
the full text `str(page_state)` that the validator searches. -/
structure PageState where
  url : Option String
  rendered : String
deriving DecidableEq, Inhabited

/-- The shared `WebAutomationState` record threaded through the LangGraph
nodes (src/agent/state.py), restricted to the fields the control loop
reads or writes.  `plan` holds the steps list of the plan dictionary. -/
structure AgentState where
  task : String
  domain : String
  retrieved_context : List String
  plan : List Step
  current_step : Nat
  steps_completed : List Nat
  browser_state : PageState
  success : Bool
  error : Option String
  screenshots : List String
  agent_reasoning : String
  retries : Nat
deriving DecidableEq, Inhabited

/-! ### Router (graph.py `_should_continue`) -/

/-- The router's decision: the `"continue"` or `"done"` edge label. -/
inductive Route where
  | cont
  | done
deriving DecidableEq, Inhabited

/-- Python truthiness of the `error` field (`if error:`): a present,
non-empty message. -/
def errTruthy : Option String → Bool
  | none => false
  | some s => s != ""

/-- Embedding of `WebAutomationAgent._should_continue` (graph.py lines
68-99).  The Python function both returns an edge label and mutates the
state (`success`, `retries`, `error`), so the embedding returns the pair. -/
def should_continue (st : AgentState) : Route × AgentState :=
  if errTruthy st.error = true ∧ 2 ≤ st.retries then
    (Route.done, st)
  else if st.success = true ∨ st.plan.length ≤ st.current_step then
    (Route.done, {st with success := true})
  else if 10 ≤ st.current_step then
    (Route.done, st)
  else if errTruthy st.error = true then
    (Route.cont, {st with retries := st.retries + 1, error := none})
  else
    (Route.cont, st)

/-! ### Validator (validator.py) -/

/-- A validation verdict dictionary `\x7b"success": ..., "reason": ...,
"should_retry": ...\x7d`.  `success` and `should_retry` are the Python
truthiness of `validation.get(...)`; `reason` is optional. -/
structure Verdict where
  success : Bool
  reason : Option String
  should_retry : Bool
deriving DecidableEq, Inhabited

/-- `target.replace("#", "").replace(".", "")` — both patterns are single
characters, so replacement by the empty string is character filtering. -/
def clean_target (t : String) : String :=
  String.mk ((t.data.filter (fun c => c ≠ '#')).filter (fun c => c ≠ '.'))

/-- Embedding of `validate_heuristic` (validator.py lines 87-118).  The
source file ends inside this function: after the action-specific rules it
computes `has_success` from the post-login marker keywords but the body is
cut off at a comment (`# S`) before that value is ever used or returned,
so control falls off the end of the function and Python returns `None`.
The embedding therefore yields `none` on every fall-through path. -/
def validate_heuristic (step : Step) (page_state : PageState)
    (error : Option String) (current_step : Nat) : Option Verdict :=
  let action := lowerStr step.action
  let target := lowerStr step.target
  let page_content := lowerStr page_state.rendered
  let current_url := lowerStr (page_state.url.getD "")
  -- dead marker scan from the truncated tail of the source, kept for fidelity:
  let success_keywords := ["dashboard", "profile", "welcome", "logout", "student", "courses", "saveetha"]
  let _has_success := 3 ≤ current_step && success_keywords.any (fun kw => strIn kw page_content)
  if action = "navigate" then
    if strIn "login/index.php" current_url then
      some ⟨true, some "On login page", false⟩
    else none
  else if action = "fill" then
    if strIn (clean_target target) page_content || strIn target page_content then
      some ⟨true, some ("Filled " ++ target), false⟩
    else none
  else if action = "click" ∨ action = "submit" then
    let no_login_form := !(strIn "#login" page_content) && !(strIn "#username" page_content)
    let page_changed := !(strIn "login/index.php" current_url)
    if no_login_form || page_changed then
      some ⟨true, some "Form submitted/page changed", false⟩
    else none
  else if action = "screenshot" then
    some ⟨true, some "Screenshot completed", false⟩
  else none

/-- The message of the `AttributeError` raised by
`validation.get("success")` when `validate_heuristic` returned `None`. -/
def noneGetMsg : String := "'NoneType' object has no attribute 'get'"

/-- Embedding of the `except` handler of `validate_step` (validator.py
lines 76-85): auto-advance the first five steps, surface the error after
that. -/
def validator_crash (msg : String) (st : AgentState) : AgentState :=
  if st.current_step ≤ 4 then
    {st with current_step := st.current_step + 1}
  else
    {st with error := some ("Validation failed: " ++ msg)}

/-- Embedding of the verdict-handling tail of `validate_step`
(validator.py lines 57-72): on success record and advance the step and
set the completion flag; on failure without a retry signal set the error,
except that steps before index 3 are force-advanced with the error
cleared (the bounded leniency policy). -/
def apply_verdict (st : AgentState) (v : Verdict) : AgentState :=
  let cs := st.current_step
  if v.success = true then
    let st1 := {st with steps_completed := st.steps_completed ++ [cs], current_step := cs + 1}
    if st1.plan.length ≤ st1.current_step then {st1 with success := true} else st1
  else if v.should_retry = false then
    let st1 := {st with error := some (v.reason.getD "Validation failed")}
    if cs < 3 then {st1 with current_step := cs + 1, error := none} else st1
  else
    st

/-- Embedding of `validate_step` (validator.py lines 27-85).  The
language-model judge is an oracle: `Except.ok v` is a parsed verdict,
`Except.error m` an exception raised during the call.  When the heuristic
tier returns `None`, the access `validation.get("success")` raises an
`AttributeError` that lands in the `except` handler before the judge or
the failure branch can run. -/
def validate_step (judge : Except String Verdict) (st : AgentState) : AgentState :=
  if st.plan.length ≤ st.current_step then
    {st with success := true}
  else
    let step := st.plan.getD st.current_step default
    match validate_heuristic step st.browser_state st.error st.current_step with
    | none => validator_crash noneGetMsg st
    | some hv =>
      if hv.success = true then
        apply_verdict st hv
      else
        match judge with
        | Except.error m => validator_crash m st
        | Except.ok jv => apply_verdict st jv

/-! ### Planner (planner.py) -/

/-- Scanning loop of `extract_value` (planner.py lines 126-136): walk the
word list and, at the first word containing one of the keywords with at
least two further words after it, return that later word stripped of
surrounding apostrophes and then double quotes. -/
def extract_value_go (keys : List String) : List String → String
  | [] => "unknown_value"
  | w :: rest =>
    if (keys.any (fun k => strIn k (lowerStr w))) = true ∧ 2 ≤ rest.length then
      pyStrip (pyStrip (rest.getD 1 "") squote) dquote
    else
      extract_value_go keys rest

/-- Embedding of `extract_value` (planner.py lines 126-136). -/
def extract_value (text : String) (keys : List String) : String :=
  extract_value_go keys (pySplit text)

/-- The username-field selector list of the heuristic plan. -/
def userFillTarget : String :=
  "input[name='acct'], input[name='username'], input[name='email'], #username, #email"

/-- The password-field selector list of the heuristic plan. -/
def passFillTarget : String :=
  "input[name='pw'], input[name='password'], #password, #pass"

/-- The submit-button selector list of the heuristic plan. -/
def clickTarget : String :=
  "input[type='submit'], button[type='submit'], #loginbtn, button:has-text('Log in'), button:has-text('Sign in')"

/-- Embedding of `generate_heuristic_plan` (planner.py lines 69-124):
always a `navigate` step, a username `fill` when the task mentions
"user" or "login", a password `fill` when it mentions "pass", then a
`click` and a final `screenshot`, numbered with the running counter. -/
def generate_heuristic_plan (task domain : String) : List Step :=
  let task_lower := lowerStr task
  let s0 : List Step := [⟨1, "navigate", domain, none, some "Page loaded"⟩]
  let p1 : List Step × Nat :=
    if strIn "user" task_lower || strIn "login" task_lower then
      (s0 ++ [⟨2, "fill", userFillTarget,
        some (extract_value task ["username", "user", "id"]), some "Username filled"⟩], 3)
    else (s0, 2)
  let p2 : List Step × Nat :=
    if strIn "pass" task_lower then
      (p1.1 ++ [⟨p1.2, "fill", passFillTarget,
        some (extract_value task ["password", "pass"]), some "Password filled"⟩], p1.2 + 1)
    else p1
  let p3 : List Step × Nat :=
    (p2.1 ++ [⟨p2.2, "click", clickTarget, none, some "Form submitted"⟩], p2.2 + 1)
  p3.1 ++ [⟨p3.2, "screenshot", "final_result", none, some "Evidence captured"⟩]

/-- JSON-like Python values, used to model the dictionaries produced by
`extract_json` from arbitrary language-model output. -/
inductive JValue where
  | jnull
  | jbool (b : Bool)
  | jnum (n : Int)
  | jstr (s : String)
  | jarr (items : List JValue)
  | jobj (fields : List (String × JValue))

/-- Key lookup in an object's field list (first occurrence wins). -/
def jlookup : List (String × JValue) → String → Option JValue
  | [], _ => none
  | (k, v) :: rest, key => if k = key then some v else jlookup rest key

/-- Python `d.get(k)`: `Except.error` models the `AttributeError` raised
when the receiver is not a dictionary. -/
def jget : JValue → String → Except Unit (Option JValue)
  | JValue.jobj fs, k => Except.ok (jlookup fs k)
  | _, _ => Except.error ()

/-- Python `d[k]`: `none` models the exception raised on a missing key or
a non-dictionary receiver. -/
def jindex : JValue → String → Option JValue
  | JValue.jobj fs, k => jlookup fs k
  | _, _ => none

/-- Python truthiness of an optional value (`None` and a missing key are
falsy). -/
def jtruthy : Option JValue → Bool
  | none => false
  | some JValue.jnull => false
  | some (JValue.jbool b) => b
  | some (JValue.jnum n) => n != 0
  | some (JValue.jstr s) => !s.data.isEmpty
  | some (JValue.jarr xs) => !xs.isEmpty
  | some (JValue.jobj fs) => !fs.isEmpty

/-- Python `len(v)`: defined for strings, lists and dictionaries, a
`TypeError` (`none`) otherwise. -/
def pyLen : JValue → Option Nat
  | JValue.jstr s => some s.data.length
  | JValue.jarr xs => some xs.length
  | JValue.jobj fs => some fs.length
  | _ => none

/-- Python iteration `for s in v`: list elements, dictionary keys, or the
characters of a string; a `TypeError` (`none`) otherwise. -/
def pyIter : JValue → Option (List JValue)
  | JValue.jarr xs => some xs
  | JValue.jobj fs => some (fs.map (fun kv => JValue.jstr kv.1))
  | JValue.jstr s => some (s.data.map (fun c => JValue.jstr (String.mk [c])))
  | _ => none

/-- The dictionary form of one heuristic plan step. -/
def stepJ (s : Step) : JValue :=
  JValue.jobj
    ([("step", JValue.jnum s.stepNo), ("action", JValue.jstr s.action),
      ("target", JValue.jstr s.target)]
      ++ (match s.data with
          | some v => [("data", JValue.jobj [("value", JValue.jstr v)])]
          | none => [])
      ++ (match s.expected_outcome with
          | some e => [("expected_outcome", JValue.jstr e)]
          | none => []))

/-- The dictionary `\x7b"steps": [...]\x7d` returned by
`generate_heuristic_plan`. -/
def heuristicPlanJ (task domain : String) : JValue :=
  JValue.jobj [("steps", JValue.jarr ((generate_heuristic_plan task domain).map stepJ))]

/-- Whether the logging line
`len(plan_json['steps'])` / `[s['action'] for s in plan_json['steps']]`
of `plan_workflow` evaluates without raising. -/
def logLineOk (pj : JValue) : Bool :=
  match jindex pj "steps" with
  | none => false
  | some sv =>
    (pyLen sv).isSome &&
    (match pyIter sv with
     | none => false
     | some items => items.all (fun s => (jindex s "action").isSome))

/-- Embedding of `plan_workflow` (planner.py lines 31-67), projected to
the plan it stores.  The language-model collaborator is an oracle:
`none` models an exception raised during inference, `some j` the
dictionary produced by `extract_json` from the response text (on
unparseable text `extract_json` yields `\x7b"steps": []\x7d`, i.e. a value
whose `steps` entry is falsy).  Any exception inside the `try` block —
`.get` on a non-dictionary parse result, or the logging line — lands in
the `except` handler, which installs the heuristic fallback plan. -/
def plan_workflow_plan (resp : Option JValue) (task domain : String) : JValue :=
  match resp with
  | none => heuristicPlanJ task domain
  | some j =>
    match jget j "steps" with
    | Except.error _ => heuristicPlanJ task domain
    | Except.ok sv =>
      let plan_json := if jtruthy sv = true then j else heuristicPlanJ task domain
      if logLineOk plan_json = true then plan_json else heuristicPlanJ task domain

/-! ### Executor (executor.py `execute_action`) -/

/-- A result dictionary returned by a browser tool call: the fields the
executor reads (`success` truthiness, optional `page_state`, presence of
`path`, optional `error` message). -/
structure RDict where
  success : Bool
  page_state : Option PageState
  path : Option String
  error : Option String
deriving DecidableEq, Inhabited

/-- Oracle for one executor invocation: the outcome of whichever browser
tool call the dispatched action performs.  `Except.error m` models an
exception with message `m`; `Except.ok none` models a falsy result. -/
structure ToolOracle where
  navigate : Except String (Option RDict)
  fill_form : Except String (Option RDict)
  click : Except String (Option RDict)
  select_option : Except String (Option RDict)
  submit_form : Except String (Option RDict)
  wait_for : Except String (Option RDict)
  extract_text : Except String (Option RDict)
  shot : Except String (String × PageState)
deriving Inhabited

/-- `str(\x7b\x7d)`: the empty page snapshot used as the default of
`result.get("page_state", \x7b\x7d)`. -/
def emptyPageState : PageState := ⟨none, "\x7b\x7d"⟩

/-- The action-dispatch block of `execute_action` (executor.py lines
30-82): the outcome of whichever browser tool call the step's action
selects.  The adapter class has no `fill` attribute (its `fill` is nested
inside `fill_form` in playwright_adapter.py), so the fill branch calls
`tools.fill_form` inside its local `try`, whose handler converts an
exception into a failure result dictionary; the screenshot branch uses
the adapter's `screenshot` method, whose exceptions reach the outer
handler. -/
def execute_dispatch (tools : ToolOracle) (action : String) :
    Except String (Option RDict) :=
  if action = "navigate" then tools.navigate
  else if action = "fill" ∨ action = "fill_form" then
    match tools.fill_form with
    | Except.ok r => Except.ok r
    | Except.error m => Except.ok (some ⟨false, none, none, some m⟩)
  else if action = "click" then tools.click
  else if action = "select" then tools.select_option
  else if action = "submit" then tools.submit_form
  else if action = "wait" then tools.wait_for
  else if action = "extract" then tools.extract_text
  else if action = "screenshot" then
    match tools.shot with
    | Except.ok pr => Except.ok (some ⟨true, some pr.2, some pr.1, none⟩)
    | Except.error m => Except.error m
  else Except.ok (some ⟨false, none, none, some ("Unknown action: " ++ action)⟩)

/-- The result-handling tail of `execute_action` (executor.py lines
84-97), including the outer exception handler: on success overwrite
`browser_state` and record a screenshot path; otherwise set `error`;
always overwrite `agent_reasoning` with the serialized raw result. -/
def execute_finish (dumps : Option RDict → String) (st : AgentState) :
    Except String (Option RDict) → AgentState
  | Except.error m => {st with error := some ("Execution failed: " ++ m)}
  | Except.ok result =>
    let st1 :=
      match result with
      | some r =>
        if r.success = true then
          let stb := {st with browser_state := r.page_state.getD emptyPageState}
          match r.path with
          | some p => {stb with screenshots := stb.screenshots ++ [p]}
          | none => stb
        else
          {st with error := some (r.error.getD "Action failed")}
      | none => {st with error := some "No result"}
    {st1 with agent_reasoning := dumps result}

/-- Embedding of `execute_action` (executor.py lines 7-97).  `dumps`
models `json.dumps` on the raw result. -/
def execute_action (tools : ToolOracle) (dumps : Option RDict → String)
    (st : AgentState) : AgentState :=
  if st.plan.isEmpty = true then
    {st with error := some "No plan available"}
  else if st.plan.length ≤ st.current_step then
    {st with success := true}
  else
    let step := st.plan.getD st.current_step default
    execute_finish dumps st (execute_dispatch tools (lowerStr step.action))

/-! ### Router iteration (C2): abstract validator outcomes and cycles -/

/-- One cycle's abstract Validator outcome, as quantified by the
termination claim: advance the step index, set the error message, or
leave both unchanged. -/
inductive VOut where
  | advance
  | setErr (msg : String)
  | noop
deriving DecidableEq, Inhabited

/-- Apply one abstract Validator outcome to the state. -/
def apply_vout : VOut → AgentState → AgentState
  | VOut.advance, st => {st with current_step := st.current_step + 1}
  | VOut.setErr m, st => {st with error := some m}
  | VOut.noop, st => st

/-- An outcome that really advances or really sets an error: `setErr ""`
is excluded because an empty message is falsy for the router's
`if error:` tests. -/
def VOut.productive : VOut → Bool
  | VOut.advance => true
  | VOut.setErr m => m != ""
  | VOut.noop => false

/-- Iterate (Validator outcome; Router) cycles: `some k` means the router
returned `"done"` on the `k`-th cycle, `none` that the outcome list was
exhausted with the router still returning `"continue"`. -/
def run_router : List VOut → AgentState → Option Nat
  | [], _ => none
  | o :: rest, st =>
    let p := should_continue (apply_vout o st)
    if p.1 = Route.done then some 1
    else (run_router rest p.2).map (fun k => k + 1)

/-- The initial execution state built by `execute_task_with_context`
(graph.py lines 110-135), as it stands once the given plan is installed. -/
def router_init (plan : List Step) : AgentState :=
  { task := "", domain := "", retrieved_context := [], plan := plan,
    current_step := 0, steps_completed := [], browser_state := emptyPageState,
    success := false, error := none, screenshots := [], agent_reasoning := "",
    retries := 0 }

/-- The orchestrator's recursion cap: `config = \x7b"recursion_limit": 15\x7d`
(graph.py line 144). -/
def recursionLimit : Nat := 15

/-- Cycle counter of the orchestrator loop under the framework's
recursion limit: runs at most `fuel` cycles, stopping early when the
router returns `"done"`. -/
def orch_cycles_go : Nat → (Nat → VOut) → Nat → AgentState → Nat
  | 0, _, _, _ => 0
  | fuel + 1, f, i, st =>
    let p := should_continue (apply_vout (f i) st)
    if p.1 = Route.done then 1
    else 1 + orch_cycles_go fuel f (i + 1) p.2

/-- Number of cycles the orchestrator executes for an arbitrary stream of
Validator outcomes, under the recursion limit of 15. -/
def orch_cycles (f : Nat → VOut) (st : AgentState) : Nat :=
  orch_cycles_go recursionLimit f 0 st

/-- Termination measure for the router iteration: remaining step budget
until the completion or ceiling rule fires, plus the remaining retry
budget. -/
def phi (st : AgentState) : Nat :=
  (min st.plan.length 10 - st.current_step) + (2 - st.retries)

/-! ### Concrete inputs used by witnesses and counterexamples -/

/-- A plain navigation step. -/
def navStep : Step := ⟨1, "navigate", "https://example.org", none, some "Page loaded"⟩

/-- A step whose action has no heuristic rule. -/
def waitStep : Step := ⟨1, "wait", "#spinner", none, none⟩

/-- A one-step plan. -/
def cxPlan : List Step := [navStep]

/-- The retry scenario state: error set, one retry granted so far. -/
def errState : AgentState := {router_init cxPlan with error := some "boom", retries := 1}

/-- A state whose error and retries are both at the termination rule. -/
def doneState : AgentState := {router_init cxPlan with error := some "hard", retries := 2}

/-- A state at the global step ceiling. -/
def ceilState : AgentState := {router_init cxPlan with current_step := 10}

/-- A failure verdict without a retry signal. -/
def failVerdict : Verdict := ⟨false, some "bad outcome", false⟩

/-- A state past the end of its plan. -/
def termState : AgentState := {router_init cxPlan with current_step := 1}

/-- A state whose current step has no matching heuristic rule. -/
def crashState : AgentState := router_init [waitStep]

/-- A tool oracle whose calls return falsy results. -/
def nullOracle : ToolOracle :=
  ⟨Except.ok none, Except.ok none, Except.ok none, Except.ok none,
   Except.ok none, Except.ok none, Except.ok none, Except.error "no browser"⟩

/-- A trivial `json.dumps` model. -/
def nullDumps : Option RDict → String := fun _ => ""

/-- The login task of the heuristic-plan scenario. -/
def hnTask : String := "Log into HackerNews. Username is 'bob'. Password is 'secret'."

/-- The domain of the heuristic-plan scenario. -/
def hnDomain : String := "https://news.ycombinator.com/login"

/-- A post-submit step whose action has no heuristic rule. -/
def markerStep : Step := ⟨4, "wait", "#load", none, none⟩

/-- A page snapshot containing the post-login marker "dashboard". -/
def markerPage : PageState := ⟨some "http://site/home", "current page shows the dashboard"⟩

/-- The guard of the action-specific heuristic success rules of
`validate_heuristic`: whether any rule returns a verdict for this step
and page.  Read directly off the conditions of validator.py lines
93-111. -/
def heuristic_rule_fires (step : Step) (ps : PageState) : Bool :=
  let action := lowerStr step.action
  let target := lowerStr step.target
  let page_content := lowerStr ps.rendered
  let current_url := lowerStr (ps.url.getD "")
  if action = "navigate" then
    strIn "login/index.php" current_url
  else if action = "fill" then
    strIn (clean_target target) page_content || strIn target page_content
  else if action = "click" ∨ action = "submit" then
    (!(strIn "#login" page_content) && !(strIn "#username" page_content)) ||
      !(strIn "login/index.php" current_url)
  else if action = "screenshot" then
    true
  else
    false

/-! ### Helper lemmas -/

/-- The router answers `"done"` exactly when one of its three
terminating rules fires. -/
theorem should_continue_done_iff (st : AgentState) :
    (should_continue st).1 = Route.done ↔
      ((errTruthy st.error = true ∧ 2 ≤ st.retries) ∨ st.success = true ∨
        st.plan.length ≤ st.current_step ∨ 10 ≤ st.current_step) := by
  unfold should_continue
  split_ifs <;> simp_all <;> tauto

/-- On a `"continue"` answer the router's state either clears a pending
error while charging one retry, or is returned unchanged. -/
theorem should_continue_cont_snd (st : AgentState)
    (h : (should_continue st).1 = Route.cont) :
    (should_continue st).2 =
      if errTruthy st.error = true then
        {st with retries := st.retries + 1, error := none}
      else st := by
  unfold should_continue at *
  split_ifs at * <;> simp_all

/-- The heuristic validator yields a verdict exactly when one of its
action-specific rules fires; every such verdict is a success verdict. -/
theorem validate_heuristic_none_iff (step : Step) (ps : PageState)
    (error : Option String) (cs : Nat) :
    validate_heuristic step ps error cs = none ↔
      heuristic_rule_fires step ps = false := by
  simp only [validate_heuristic, heuristic_rule_fires]
  split_ifs <;> simp_all <;> aesop

/-- The heuristic fallback plan always has at least three steps. -/
theorem generate_heuristic_plan_three (task domain : String) :
    3 ≤ (generate_heuristic_plan task domain).length := by
  simp only [generate_heuristic_plan]
  split_ifs <;> simp

/-- The heuristic fallback plan always carries a navigate, a click and a
screenshot action. -/
theorem generate_heuristic_plan_actions (task domain : String) :
    "navigate" ∈ (generate_heuristic_plan task domain).map Step.action ∧
    "click" ∈ (generate_heuristic_plan task domain).map Step.action ∧
    "screenshot" ∈ (generate_heuristic_plan task domain).map Step.action := by
  simp only [generate_heuristic_plan]
  split_ifs <;> simp

/-! ### Claim theorems -/

/-- Claim C1: with a (non-empty) error set, the router returns DONE when
`retries ≥ 2`; otherwise — completion, step-ceiling and success rules not
firing — it returns CONTINUE with `retries` incremented by exactly one
and `error` cleared, the step index untouched; and in the `retries = 1`
scenario the next evaluation with an error set again returns DONE. -/
theorem router_error_rule (st t : AgentState) (e e2 : String)
    (ht_err : errTruthy t.error = true) (ht_ret : 2 ≤ t.retries)
    (herr : st.error = some e) (hne : e ≠ "") (hret : st.retries < 2)
    (hsucc : st.success = false) (hcs : st.current_step < st.plan.length)
    (hceil : st.current_step < 10) (hne2 : e2 ≠ "") :
    should_continue t = (Route.done, t) ∧
    should_continue st =
      (Route.cont, {st with retries := st.retries + 1, error := none}) ∧
    should_continue {st with retries := 2, error := some e2} =
      (Route.done, {st with retries := 2, error := some e2}) := by
  have hst_err : errTruthy st.error = true := by
    rw [herr]; simpa [errTruthy] using hne
  refine ⟨?_, ?_, ?_⟩
  · unfold should_continue
    rw [if_pos ⟨ht_err, ht_ret⟩]
  · unfold should_continue
    split_ifs with h1 h2 h3 <;>
      first | rfl | (exfalso; omega) | (exfalso; simp_all <;> omega)
  · unfold should_continue
    rw [if_pos ⟨by simp [errTruthy, hne2], by simp⟩]

/-- Claim C3: at or beyond the global step ceiling of 10 the router
always answers DONE, whatever the plan length, error and retry count. -/
theorem router_step_ceiling (st : AgentState) (h : 10 ≤ st.current_step) :
    (should_continue st).1 = Route.done := by
  rw [should_continue_done_iff]
  tauto

/-- Claim C4: one Validator transition (any judge behavior included) and
one Router transition preserve `0 ≤ current_step ≤ len(plan.steps)`; the
plan itself is untouched and the Router never modifies `current_step`. -/
theorem step_index_invariant (judge : Except String Verdict) (st : AgentState)
    (h : st.current_step ≤ st.plan.length) :
    (0 ≤ (validate_step judge st).current_step ∧
      (validate_step judge st).current_step ≤ (validate_step judge st).plan.length ∧
      (validate_step judge st).plan = st.plan) ∧
    ((should_continue st).2.current_step = st.current_step ∧
      (should_continue st).2.plan = st.plan) := by
  have hcrash : ∀ m, ((validator_crash m st).current_step = st.current_step ∨
      (validator_crash m st).current_step = st.current_step + 1) ∧
      (validator_crash m st).plan = st.plan := by
    intro m; unfold validator_crash; split_ifs <;> simp
  have happ : ∀ v, ((apply_verdict st v).current_step = st.current_step ∨
      (apply_verdict st v).current_step = st.current_step + 1) ∧
      (apply_verdict st v).plan = st.plan := by
    intro v
    unfold apply_verdict
    by_cases h1 : v.success = true <;> by_cases h2 : v.should_retry = false <;>
      simp [h1, h2] <;> split_ifs <;> simp
  constructor
  · simp only [validate_step]
    split_ifs with h1
    · simpa using h
    · cases hh : validate_heuristic (st.plan.getD st.current_step default)
          st.browser_state st.error st.current_step with
      | none =>
        rcases hcrash noneGetMsg with ⟨hc1, hc2⟩
        dsimp only
        refine ⟨Nat.zero_le _, ?_, hc2⟩
        rw [hc2]; omega
      | some hv =>
        dsimp only
        by_cases h2 : hv.success = true
        · rw [if_pos h2]
          rcases happ hv with ⟨ha1, ha2⟩
          refine ⟨Nat.zero_le _, ?_, ha2⟩
          rw [ha2]; omega
        · rw [if_neg h2]
          cases judge with
          | error m =>
            dsimp only
            rcases hcrash m with ⟨hc1, hc2⟩
            refine ⟨Nat.zero_le _, ?_, hc2⟩
            rw [hc2]; omega
          | ok jv =>
            dsimp only
            rcases happ jv with ⟨ha1, ha2⟩
            refine ⟨Nat.zero_le _, ?_, ha2⟩
            rw [ha2]; omega
  · unfold should_continue
    split_ifs <;> simp

/-- Claim C6: a failure verdict without a retry signal force-advances the
step and clears the error when `current_step < 3`, and otherwise records
the failure reason in `error` while leaving `current_step` unchanged. -/
theorem validator_failure_leniency (st : AgentState) (v : Verdict)
    (hs : v.success = false) (hr : v.should_retry = false) :
    apply_verdict st v =
      if st.current_step < 3 then
        {st with current_step := st.current_step + 1, error := none}
      else
        {st with error := some (v.reason.getD "Validation failed")} := by
  unfold apply_verdict
  rw [if_neg (by simp [hs]), if_pos hr]

/-- Claim C7, evaluated on the code: at `current_step = 3`, with a page
snapshot containing the post-login marker "dashboard" and a step whose
action matches no rule, `validate_heuristic` returns no verdict at all —
the marker pass computes `has_success` but the truncated function body
never returns it. -/
theorem heuristic_marker_no_verdict :
    validate_heuristic markerStep markerPage none 3 = none ∧
    strIn "dashboard" (lowerStr markerPage.rendered) = true ∧
    heuristic_rule_fires markerStep markerPage = false := by decide

/-- Claim C8, counterexample: for the HackerNews scenario the first fill
step's data value is not "bob" (the trailing period keeps the closing
apostrophe attached). -/
theorem hn_plan_value_counterexample :
    (generate_heuristic_plan hnTask hnDomain).map Step.action =
      ["navigate", "fill", "fill", "click", "screenshot"] ∧
    ((generate_heuristic_plan hnTask hnDomain).getD 1 default).data ≠ some "bob" := by
  decide

/-- Claim C8 as amended: the heuristic plan for the HackerNews scenario
is exactly navigate, fill, fill, click, screenshot, and the extracted
fill values are "bob'." and "secret'." — `strip` removes quote characters
only at the very ends of the token, and the token ends in a period, so
the inner closing quotes survive. -/
theorem hn_plan_amended :
    (generate_heuristic_plan hnTask hnDomain).map Step.action =
      ["navigate", "fill", "fill", "click", "screenshot"] ∧
    ((generate_heuristic_plan hnTask hnDomain).getD 1 default).data = some "bob'." ∧
    ((generate_heuristic_plan hnTask hnDomain).getD 2 default).data = some "secret'." := by
  decide

/-! ### Witnesses for the hypothesis-bearing claim theorems -/

/-- Witness for C1 at concrete states. -/
theorem router_error_rule_witness :
    should_continue doneState = (Route.done, doneState) ∧
    should_continue errState =
      (Route.cont, {errState with retries := errState.retries + 1, error := none}) ∧
    should_continue {errState with retries := 2, error := some "late"} =
      (Route.done, {errState with retries := 2, error := some "late"}) :=
  router_error_rule errState doneState "boom" "late" (by decide) (by decide)
    rfl (by decide) (by decide) (by decide) (by decide) (by decide) (by decide)

/-- Witness for C3 at a concrete state. -/
theorem router_step_ceiling_witness :
    (should_continue ceilState).1 = Route.done :=
  router_step_ceiling ceilState (by decide)

/-- Witness for C4 at a concrete judge and state. -/
theorem step_index_invariant_witness :
    (0 ≤ (validate_step (Except.ok failVerdict) (router_init cxPlan)).current_step ∧
      (validate_step (Except.ok failVerdict) (router_init cxPlan)).current_step ≤
        (validate_step (Except.ok failVerdict) (router_init cxPlan)).plan.length ∧
      (validate_step (Except.ok failVerdict) (router_init cxPlan)).plan =
        (router_init cxPlan).plan) ∧
    ((should_continue (router_init cxPlan)).2.current_step =
        (router_init cxPlan).current_step ∧
      (should_continue (router_init cxPlan)).2.plan = (router_init cxPlan).plan) :=
  step_index_invariant (Except.ok failVerdict) (router_init cxPlan) (by decide)

/-- The orchestrator's cycle counter never exceeds its fuel. -/
theorem orch_cycles_go_le (fuel : Nat) : ∀ (f : Nat → VOut) (i : Nat) (st : AgentState),
    orch_cycles_go fuel f i st ≤ fuel := by
  induction fuel with
  | zero => intro f i st; simp [orch_cycles_go]
  | succ n ih =>
    intro f i st
    simp only [orch_cycles_go]
    split_ifs
    · omega
    · have := ih f (i + 1) (should_continue (apply_vout (f i) st)).2
      omega

/-- Router progress: starting from an error-free, non-success state with
at most two retries spent, any sequence of productive Validator outcomes
drives the router to DONE within the measure `phi`. -/
theorem run_router_progress (outs : List VOut) :
    ∀ st : AgentState, st.error = none → st.success = false → st.retries ≤ 2 →
      (∀ o ∈ outs, o.productive = true) →
      max 1 (phi st) ≤ outs.length →
      ∃ k, run_router outs st = some k ∧ k ≤ max 1 (phi st) := by
  induction outs with
  | nil =>
    intro st _ _ _ _ hlen
    simp only [List.length_nil] at hlen
    omega
  | cons o rest ih =>
    intro st herr hsucc hret hprod hlen
    have hpo : o.productive = true := hprod o (List.mem_cons_self o rest)
    have hprest : ∀ x ∈ rest, x.productive = true :=
      fun x hx => hprod x (List.mem_cons_of_mem o hx)
    simp only [List.length_cons] at hlen
    cases o with
    | advance =>
      simp only [run_router, apply_vout]
      by_cases hdone :
          (should_continue {st with current_step := st.current_step + 1}).1 = Route.done
      · exact ⟨1, by rw [if_pos hdone], by omega⟩
      · have hcont : (should_continue {st with current_step := st.current_step + 1}).1 =
            Route.cont := by
          cases hq : (should_continue {st with current_step := st.current_step + 1}).1
          · rfl
          · exact absurd hq hdone
        have hsnd := should_continue_cont_snd _ hcont
        rw [if_neg (by simp [herr, errTruthy])] at hsnd
        rw [if_neg hdone, hsnd]
        rw [should_continue_done_iff] at hdone
        push_neg at hdone
        dsimp only at hdone
        obtain ⟨-, -, hd1, hd2⟩ := hdone
        obtain ⟨k, hk, hkb⟩ := ih {st with current_step := st.current_step + 1}
          herr hsucc hret hprest (by dsimp only [phi] at *; omega)
        refine ⟨k + 1, by rw [hk]; rfl, ?_⟩
        dsimp only [phi] at *
        omega
    | setErr m =>
      have hm : errTruthy (some m) = true := by
        simpa [VOut.productive, errTruthy] using hpo
      simp only [run_router, apply_vout]
      by_cases hdone : (should_continue {st with error := some m}).1 = Route.done
      · exact ⟨1, by rw [if_pos hdone], by omega⟩
      · have hcont : (should_continue {st with error := some m}).1 = Route.cont := by
          cases hq : (should_continue {st with error := some m}).1
          · rfl
          · exact absurd hq hdone
        have hsnd := should_continue_cont_snd _ hcont
        rw [if_pos (by simpa using hm)] at hsnd
        rw [if_neg hdone, hsnd]
        rw [should_continue_done_iff] at hdone
        push_neg at hdone
        dsimp only at hdone
        obtain ⟨hd0, -, hd1, hd2⟩ := hdone
        have hr2 : st.retries < 2 := hd0 (by simpa using hm)
        dsimp only
        obtain ⟨k, hk, hkb⟩ := ih {st with retries := st.retries + 1, error := none}
          rfl hsucc (by dsimp only; omega) hprest (by dsimp only [phi] at *; omega)
        refine ⟨k + 1, by rw [hk]; rfl, ?_⟩
        dsimp only [phi] at *
        omega
    | noop => simp [VOut.productive] at hpo

/-- Claim C2, counterexample: with a one-step plan (claimed bound
`max(1, 10) + 2 = 12`) and thirteen cycles of Validator outcomes that
leave the state unchanged, the router answers CONTINUE on every cycle,
so DONE is not reached within the claimed bound. -/
theorem router_no_termination_counterexample :
    run_router (List.replicate 13 VOut.noop) (router_init cxPlan) = none ∧
    max cxPlan.length 10 + 2 = 12 := by decide

/-- Claim C2 as amended: for Validator-outcome sequences whose every
cycle either advances the step or sets a non-empty error, the router
reaches DONE within `max(len(plan.steps), 10) + 2` cycles from the
initial state; and the orchestrator loop never runs more than its
recursion limit of 15 cycles, whatever the outcomes. -/
theorem router_termination_amended (plan : List Step) (outs : List VOut)
    (f : Nat → VOut) (st : AgentState)
    (hprod : ∀ o ∈ outs, o.productive = true)
    (hlen : max plan.length 10 + 2 ≤ outs.length) :
    (∃ k, run_router outs (router_init plan) = some k ∧
      k ≤ max plan.length 10 + 2) ∧
    orch_cycles f st ≤ 15 := by
  constructor
  · have hphi : phi (router_init plan) = (min plan.length 10 - 0) + (2 - 0) := by
      simp [phi, router_init]
    obtain ⟨k, hk, hkb⟩ := run_router_progress outs (router_init plan) rfl rfl
      (by simp [router_init]) hprod (by rw [hphi]; omega)
    exact ⟨k, hk, by rw [hphi] at hkb; omega⟩
  · exact orch_cycles_go_le recursionLimit f 0 st

/-- Witness for the amended C2 at a concrete plan and outcome stream. -/
theorem router_termination_amended_witness :
    (∃ k, run_router (List.replicate 12 VOut.advance) (router_init cxPlan) = some k ∧
      k ≤ max cxPlan.length 10 + 2) ∧
    orch_cycles (fun _ => VOut.advance) (router_init cxPlan) ≤ 15 :=
  router_termination_amended cxPlan (List.replicate 12 VOut.advance)
    (fun _ => VOut.advance) (router_init cxPlan) (by decide) (by decide)

/-- Claim C5: whatever the language-model collaborator does — a
well-formed plan, malformed output (parsed to a falsy `steps`), JSON of
any shape, or an exception — the planner stores a plan whose `steps`
entry exists and has length at least 1, the heuristic fallback always
providing at least navigate, click and screenshot steps. -/
theorem plan_nonempty (resp : Option JValue) (task domain : String) :
    (∃ sv n, jindex (plan_workflow_plan resp task domain) "steps" = some sv ∧
      pyLen sv = some n ∧ 1 ≤ n) ∧
    "navigate" ∈ (generate_heuristic_plan task domain).map Step.action ∧
    "click" ∈ (generate_heuristic_plan task domain).map Step.action ∧
    "screenshot" ∈ (generate_heuristic_plan task domain).map Step.action := by
  refine ⟨?_, generate_heuristic_plan_actions task domain⟩
  have hheur : ∃ sv n, jindex (heuristicPlanJ task domain) "steps" = some sv ∧
      pyLen sv = some n ∧ 1 ≤ n := by
    refine ⟨JValue.jarr ((generate_heuristic_plan task domain).map stepJ),
      (generate_heuristic_plan task domain).length, ?_, ?_, ?_⟩
    · simp [heuristicPlanJ, jindex, jlookup]
    · simp [pyLen]
    · have := generate_heuristic_plan_three task domain; omega
  cases resp with
  | none => simpa [plan_workflow_plan] using hheur
  | some j =>
    cases j with
    | jobj fs =>
      simp only [plan_workflow_plan, jget]
      by_cases ht : jtruthy (jlookup fs "steps") = true
      · rw [if_pos ht]
        by_cases hlog : logLineOk (JValue.jobj fs) = true
        · rw [if_pos hlog]
          cases hsv : jlookup fs "steps" with
          | none => rw [hsv] at ht; simp [jtruthy] at ht
          | some v =>
            rw [hsv] at ht
            simp only [logLineOk, jindex, hsv, Bool.and_eq_true] at hlog
            obtain ⟨hlen, -⟩ := hlog
            obtain ⟨n, hn⟩ := Option.isSome_iff_exists.mp hlen
            refine ⟨v, n, by simp [jindex, hsv], hn, ?_⟩
            cases v with
            | jnull => simp [jtruthy] at ht
            | jbool b => simp [pyLen] at hn
            | jnum i => simp [pyLen] at hn
            | jstr s =>
              simp only [jtruthy, Bool.not_eq_true'] at ht
              simp only [pyLen, Option.some.injEq] at hn
              have : s.data ≠ [] := by
                intro hx; rw [hx] at ht; simp at ht
              have : 0 < s.data.length := List.length_pos.mpr this
              omega
            | jarr xs =>
              simp only [jtruthy, Bool.not_eq_true'] at ht
              simp only [pyLen, Option.some.injEq] at hn
              have : xs ≠ [] := by
                intro hx; rw [hx] at ht; simp at ht
              have : 0 < xs.length := List.length_pos.mpr this
              omega
            | jobj gs =>
              simp only [jtruthy, Bool.not_eq_true'] at ht
              simp only [pyLen, Option.some.injEq] at hn
              have : gs ≠ [] := by
                intro hx; rw [hx] at ht; simp at ht
              have : 0 < gs.length := List.length_pos.mpr this
              omega
        · rw [if_neg hlog]; exact hheur
      · rw [if_neg ht]
        split_ifs <;> exact hheur
    | jnull => simpa [plan_workflow_plan, jget] using hheur
    | jbool b => simpa [plan_workflow_plan, jget] using hheur
    | jnum i => simpa [plan_workflow_plan, jget] using hheur
    | jstr s => simpa [plan_workflow_plan, jget] using hheur
    | jarr xs => simpa [plan_workflow_plan, jget] using hheur

/-- Claim C9, counterexample: on an empty plan, `current_step = 0`
satisfies `current_step ≥ len(plan.steps)`, yet the executor's first
guard sets `error = "No plan available"` and leaves `success` false. -/
theorem executor_empty_plan_counterexample :
    (router_init []).plan.length ≤ (router_init []).current_step ∧
    (execute_action nullOracle nullDumps (router_init [])).success = false ∧
    (execute_action nullOracle nullDumps (router_init [])).error =
      some "No plan available" := by decide

/-- Claim C9 as amended: with a non-empty plan and
`current_step ≥ len(plan.steps)` the executor sets `success = true` and
changes nothing else; and on every input — every tool behavior included —
the executor leaves `current_step` untouched. -/
theorem executor_terminal_frame (tools : ToolOracle) (dumps : Option RDict → String)
    (st st2 : AgentState) (hne : st.plan ≠ []) (h : st.plan.length ≤ st.current_step) :
    execute_action tools dumps st = {st with success := true} ∧
    (execute_action tools dumps st2).current_step = st2.current_step := by
  have hfin : ∀ (s : AgentState) (d : Except String (Option RDict)),
      (execute_finish dumps s d).current_step = s.current_step := by
    intro s d
    cases d with
    | error m => rfl
    | ok result =>
      cases result with
      | none => rfl
      | some r =>
        by_cases hs : r.success = true
        · rcases hp : r.path with _ | p <;> simp [execute_finish, hs, hp]
        · simp [execute_finish, hs]
  constructor
  · unfold execute_action
    rw [if_neg (by simp [List.isEmpty_iff, hne]), if_pos h]
  · unfold execute_action
    split_ifs <;> first | rfl | exact hfin st2 _

/-- Witness for the amended C9 at concrete inputs. -/
theorem executor_terminal_frame_witness :
    execute_action nullOracle nullDumps termState = {termState with success := true} ∧
    (execute_action nullOracle nullDumps (router_init cxPlan)).current_step =
      (router_init cxPlan).current_step :=
  executor_terminal_frame nullOracle nullDumps termState (router_init cxPlan)
    (by decide) (by decide)

/-- Claim C10: when no action-specific heuristic rule matches the current
step, `validate_heuristic` returns no verdict (`None`); `validate_step`
then raises on `validation.get` before the judge tier or the explicit
failure branch can run — the result is the same for every judge — and
the exception handler decides: step indices up to 4 are auto-advanced
without being recorded in `steps_completed`, indices from 5 on set the
error without advancing. -/
theorem validator_fallthrough (judge judge2 : Except String Verdict) (st : AgentState)
    (hlt : st.current_step < st.plan.length)
    (hno : heuristic_rule_fires (st.plan.getD st.current_step default)
      st.browser_state = false) :
    validate_heuristic (st.plan.getD st.current_step default) st.browser_state st.error
      st.current_step = none ∧
    validate_step judge st = validator_crash noneGetMsg st ∧
    validate_step judge2 st = validate_step judge st ∧
    validator_crash noneGetMsg st =
      (if st.current_step ≤ 4 then {st with current_step := st.current_step + 1}
       else {st with error := some ("Validation failed: " ++ noneGetMsg)}) ∧
    (validator_crash noneGetMsg st).steps_completed = st.steps_completed := by
  have hnone : validate_heuristic (st.plan.getD st.current_step default)
      st.browser_state st.error st.current_step = none :=
    (validate_heuristic_none_iff _ _ _ _).mpr hno
  have hstep : ∀ jd : Except String Verdict,
      validate_step jd st = validator_crash noneGetMsg st := by
    intro jd
    simp only [validate_step]
    rw [if_neg (by omega), hnone]
  refine ⟨hnone, hstep judge, by rw [hstep judge, hstep judge2], by rfl, ?_⟩
  unfold validator_crash
  split_ifs <;> rfl

/-- Witness for C10 at a concrete state. -/
theorem validator_fallthrough_witness :
    validate_heuristic (crashState.plan.getD crashState.current_step default)
      crashState.browser_state crashState.error crashState.current_step = none ∧
    validate_step (Except.ok failVerdict) crashState =
      validator_crash noneGetMsg crashState ∧
    validate_step (Except.error "llm down") crashState =
      validate_step (Except.ok failVerdict) crashState ∧
    validator_crash noneGetMsg crashState =
      (if crashState.current_step ≤ 4 then
        {crashState with current_step := crashState.current_step + 1}
       else {crashState with error := some ("Validation failed: " ++ noneGetMsg)}) ∧
    (validator_crash noneGetMsg crashState).steps_completed =
      crashState.steps_completed :=
  validator_fallthrough (Except.ok failVerdict) (Except.error "llm down") crashState
    (by decide) (by decide)

/-- Witness for C6 at a concrete state and verdict. -/
theorem validator_failure_leniency_witness :
    apply_verdict (router_init cxPlan) failVerdict =
      if (router_init cxPlan).current_step < 3 then
        {router_init cxPlan with
          current_step := (router_init cxPlan).current_step + 1, error := none}
      else
        {router_init cxPlan with
          error := some (failVerdict.reason.getD "Validation failed")} :=
  validator_failure_leniency (router_init cxPlan) failVerdict rfl rfl
